import Mathlib

/-!
Verification of the CNPJ lookup proxy (itsRomuloGarcia/performan).

JavaScript strings are embedded as `List Char`; JS `Map`s (which preserve
insertion order) as association lists; timestamps (`Date.now()`) as `Int`
milliseconds.  Fallible/branching code becomes total Lean functions over
these representations.
-/

set_option maxHeartbeats 1000000

/-- Numeric value of a digit character, as produced by JS `parseInt` on a
single digit character or by numeric coercion of a one-character string. -/
def dval (c : Char) : Nat := c.toNat - '0'.toNat

/-- JS `charAt`: character at an index (all uses in the sources are in
range, so the default is irrelevant). -/
def charAt (l : List Char) (i : Nat) : Char := l.getD i '0'

/-- JS `str.replace(/\D/g, '')`: keep only the decimal digit characters. -/
def cleanDigits (s : List Char) : List Char := s.filter Char.isDigit

/-- JS regex test `^(\d)\1+$` applied to an all-digit string: the whole
string is a single digit repeated at least twice. -/
def allSame : List Char → Bool
  | [] => false
  | [_] => false
  | c :: t => t.all fun x => x == c

/-- Weight update in `src/api/cnpj.js` `CNPJValidatorServer.validate`:
`pos--` followed by `if (pos < 2) pos = 9`. -/
def wnextA (pos : Nat) : Nat := if pos - 1 < 2 then 9 else pos - 1

/-- Weight update in `src/unnamed/part_000` and `src/public/script.js`:
`weight = weight === 2 ? 9 : weight - 1`. -/
def wnextB (w : Nat) : Nat := if w = 2 then 9 else w - 1

/-- The check-digit accumulation loop of `src/api/cnpj.js`
(`soma += numeros.charAt(tamanho - i) * pos--`, iterating the characters
of `numeros` left to right). -/
def apiLoop : List Char → Nat → Nat
  | [], _ => 0
  | c :: t, pos => dval c * pos + apiLoop t (wnextA pos)

/-- The check-digit accumulation loop of `src/unnamed/part_000` and
`src/public/script.js` (`sum += parseInt(cleaned[i]) * weight`). -/
def optLoop : List Char → Nat → Nat
  | [], _ => 0
  | c :: t, w => dval c * w + optLoop t (wnextB w)

/-- Check-digit formula of `src/api/cnpj.js`:
`soma % 11 < 2 ? 0 : 11 - (soma % 11)`. -/
def digitA (soma : Nat) : Nat := if soma % 11 < 2 then 0 else 11 - soma % 11

/-- Check-digit formula of `src/unnamed/part_000` and
`src/public/script.js`: `digit = 11 - (sum % 11); if (digit > 9) digit = 0`. -/
def digitB (sum : Nat) : Nat := if 11 - sum % 11 > 9 then 0 else 11 - sum % 11

/-- Result of `validate` in all three sources: `{isValid:false, error}` or
`{isValid:true, cleaned}`. -/
inductive VResult where
  | invalid (error : List Char)
  | valid (cleaned : List Char)
deriving DecidableEq, Repr

/-- Embedding of `CNPJValidatorServer.validate` from `src/api/cnpj.js`
(lines 164-207).  `tamanho = cleaned.length - 2`, `numeros` and `digitos`
are the corresponding substrings, the loop runs `i = tamanho .. 1` reading
`numeros.charAt(tamanho - i)`, i.e. the characters of `numeros` in order. -/
def apiValidate (cnpj : List Char) : VResult :=
  let cleaned := cleanDigits cnpj
  if cleaned.length ≠ 14 then .invalid "CNPJ deve conter 14 dígitos".data
  else if allSame cleaned then .invalid "CNPJ inválido".data
  else
    let tamanho := cleaned.length - 2
    let numeros := cleaned.take tamanho
    let digitos := cleaned.drop tamanho
    let soma := apiLoop numeros (tamanho - 7)
    if digitA soma ≠ dval (charAt digitos 0) then .invalid "CNPJ inválido".data
    else
      let tamanho2 := tamanho + 1
      let numeros2 := cleaned.take tamanho2
      let soma2 := apiLoop numeros2 (tamanho2 - 7)
      if digitA soma2 ≠ dval (charAt digitos 1) then .invalid "CNPJ inválido".data
      else .valid cleaned

/-- Embedding of `CNPJValidatorServer.validate` from `src/unnamed/part_000`
(lines 104-148): first loop over `cleaned[0..11]` with weight starting at 5,
second over `cleaned[0..12]` with weight starting at 6. -/
def optValidate (cnpj : List Char) : VResult :=
  let cleaned := cleanDigits cnpj
  if cleaned.length ≠ 14 then .invalid "CNPJ deve conter 14 dígitos".data
  else if allSame cleaned then .invalid "CNPJ inválido".data
  else
    let sum := optLoop (cleaned.take 12) 5
    if digitB sum ≠ dval (charAt cleaned 12) then .invalid "CNPJ inválido".data
    else
      let sum2 := optLoop (cleaned.take 13) 6
      if digitB sum2 ≠ dval (charAt cleaned 13) then .invalid "CNPJ inválido".data
      else .valid cleaned

/-- Embedding of `CNPJValidator.validate` from `src/public/script.js`
(lines 26-69); the algorithm is textually the same as the one in
`src/unnamed/part_000`. -/
def clientValidate (cnpj : List Char) : VResult :=
  let cleaned := cleanDigits cnpj
  if cleaned.length ≠ 14 then .invalid "CNPJ deve conter 14 dígitos".data
  else if allSame cleaned then .invalid "CNPJ inválido".data
  else
    let sum := optLoop (cleaned.take 12) 5
    if digitB sum ≠ dval (charAt cleaned 12) then .invalid "CNPJ inválido".data
    else
      let sum2 := optLoop (cleaned.take 13) 6
      if digitB sum2 ≠ dval (charAt cleaned 13) then .invalid "CNPJ inválido".data
      else .valid cleaned

/-- Outcome vocabulary of the specification for the checksum validator
(spec section 4.1). -/
inductive SpecOutcome where
  | wrongLength
  | repeatedDigit
  | badCheckDigit
  | accepted (cleaned : List Char)
deriving DecidableEq, Repr

/-- Modelled from the spec's words (section 4.1), for comparison with the
implementations: strip non-digits; `WrongLength` unless exactly 14 digits;
`RepeatedDigit` when all 14 are identical; first check digit is a weighted
sum of the first 12 digits with weights 5,4,3,2,9,8,7,6,5,4,3,2, as
`11 - (sum mod 11)` clamped to 0 when the result exceeds 9, compared with
position 12; second check digit likewise over the first 13 digits with
weights 6,5,4,3,2,9,8,7,6,5,4,3,2, compared with position 13. -/
def specValidate (raw : List Char) : SpecOutcome :=
  let cleaned := cleanDigits raw
  if cleaned.length ≠ 14 then .wrongLength
  else if allSame cleaned then .repeatedDigit
  else
    let ds := cleaned.map dval
    let sum1 := (List.zipWith (· * ·) (ds.take 12) [5, 4, 3, 2, 9, 8, 7, 6, 5, 4, 3, 2]).sum
    let d1 := if 11 - sum1 % 11 > 9 then 0 else 11 - sum1 % 11
    if d1 ≠ ds.getD 12 0 then .badCheckDigit
    else
      let sum2 := (List.zipWith (· * ·) (ds.take 13) [6, 5, 4, 3, 2, 9, 8, 7, 6, 5, 4, 3, 2]).sum
      let d2 := if 11 - sum2 % 11 > 9 then 0 else 11 - sum2 % 11
      if d2 ≠ ds.getD 13 0 then .badCheckDigit
      else .accepted cleaned

/-- Correspondence between an implementation result and a spec outcome:
identical verdicts, identical cleaned string on success, and the
implementation's concrete error strings on each failure. -/
def matchesSpec : VResult → SpecOutcome → Prop
  | .valid c, .accepted c' => c = c'
  | .invalid e, .wrongLength => e = "CNPJ deve conter 14 dígitos".data
  | .invalid e, .repeatedDigit => e = "CNPJ inválido".data
  | .invalid e, .badCheckDigit => e = "CNPJ inválido".data
  | _, _ => False

/-- Weight sequence generated by the `weight = weight === 2 ? 9 : weight - 1`
update, starting from `w`, for `n` steps. -/
def seqB (w : Nat) : Nat → List Nat
  | 0 => []
  | n + 1 => w :: seqB (wnextB w) n

/-- JS falsiness of a possibly-absent string value (`undefined`, `null` and
`''` are falsy; every other string is truthy). -/
def strFalsy : Option (List Char) → Bool
  | none => true
  | some s => s.isEmpty

/-- JS `a || b` for possibly-absent string operands. -/
def jsOr (a b : Option (List Char)) : Option (List Char) := if strFalsy a then b else a

/-- JS `a || null` for a possibly-absent string operand. -/
def jsOrNull (a : Option (List Char)) : Option (List Char) := if strFalsy a then none else a

/-- JS `a || "lit"`: the string itself when truthy, the literal default
otherwise. -/
def jsOrD (a : Option (List Char)) (d : List Char) : List Char :=
  if strFalsy a then d else a.getD []

/-- JS `String.prototype.trim`: drop whitespace from both ends. -/
def jsTrim (s : List Char) : List Char :=
  ((s.dropWhile Char.isWhitespace).reverse.dropWhile Char.isWhitespace).reverse

/-- JS `s.replace(pat, repl)` with a plain string pattern: replace the first
occurrence only. -/
def replaceFirst (pat repl : List Char) : List Char → List Char
  | [] => if pat.isEmpty then repl else []
  | c :: t =>
    if pat.isPrefixOf (c :: t) then repl ++ (c :: t).drop pat.length
    else c :: replaceFirst pat repl t

/-- JS `s.includes(pat)`: substring test. -/
def containsSub (pat : List Char) : List Char → Bool
  | [] => pat.isEmpty
  | c :: t => pat.isPrefixOf (c :: t) || containsSub pat t

/-- JS `s.startsWith(p)` on embedded strings. -/
def startsWithChars (s p : List Char) : Bool := p.isPrefixOf s

/-- Value of a string of decimal digits. -/
def digitsToNat (ds : List Char) : Nat := ds.foldl (fun a c => a * 10 + dval c) 0

/-- Decimal representation of a natural number (the first argument is
structural fuel, always sufficient at `n + 1`). -/
def natCharsCore : Nat → Nat → List Char → List Char
  | 0, _, acc => acc
  | fuel + 1, n, acc =>
    if n < 10 then Char.ofNat (48 + n) :: acc
    else natCharsCore fuel (n / 10) (Char.ofNat (48 + n % 10) :: acc)

/-- JS number-to-string conversion for a nonnegative integer. -/
def natChars (n : Nat) : List Char := natCharsCore (n + 1) n []

/-- JS number-to-string conversion for an integer (template literals such
as `${now}`). -/
def intChars (n : Int) : List Char :=
  if n < 0 then '-' :: natChars n.natAbs else natChars n.natAbs

/-- Decimal fragment of JS `parseFloat` (optional sign, integer digits,
optional fractional digits); `none` plays the role of `NaN`.  This is the
fragment exercised by the currency strings handled in
`DataMapper.parseCurrency`; exponent notation and `Infinity` are not
produced by that pipeline. -/
def jsParseFloat (s : List Char) : Option Rat :=
  let s1 := s.dropWhile Char.isWhitespace
  let signv : Rat := if s1.head? = some '-' then -1 else 1
  let s2 := if s1.head? = some '-' ∨ s1.head? = some '+' then s1.tail else s1
  let intPart := s2.takeWhile Char.isDigit
  let rest := s2.dropWhile Char.isDigit
  let fracPart := if rest.head? = some '.' then rest.tail.takeWhile Char.isDigit else []
  if intPart.isEmpty && fracPart.isEmpty then none
  else some (signv * ((digitsToNat intPart : Rat) +
    (digitsToNat fracPart : Rat) / ((10 : Rat) ^ fracPart.length)))

/-- Upstream `qualificacao_socio` object. -/
structure QualSocio where
  descricao : Option (List Char)
deriving DecidableEq, Repr

/-- Upstream partner (`socios[]`) object, restricted to the fields the
mapper reads. -/
structure Socio where
  nome : Option (List Char)
  faixa_etaria : Option (List Char)
  qualificacao_socio : Option QualSocio
  tipo : Option (List Char)
  data_entrada : Option (List Char)
deriving DecidableEq, Repr

/-- Upstream activity object (`atividade_principal`,
`atividades_secundarias[]`). -/
structure Atividade where
  id : Option (List Char)
  descricao : Option (List Char)
deriving DecidableEq, Repr

/-- Upstream city object. -/
structure Cidade where
  nome : Option (List Char)
deriving DecidableEq, Repr

/-- Upstream state object. -/
structure Estado where
  sigla : Option (List Char)
deriving DecidableEq, Repr

/-- Upstream country object. -/
structure Pais where
  nome : Option (List Char)
deriving DecidableEq, Repr

/-- Upstream state-registration object (`inscricoes_estaduais[]`). -/
structure InscricaoEstadual where
  inscricao_estadual : Option (List Char)
  estado : Option Estado
  ativo : Bool
deriving DecidableEq, Repr

/-- Upstream establishment object, restricted to the fields the mapper
reads. -/
structure Estabelecimento where
  cnpj : Option (List Char)
  nome_fantasia : Option (List Char)
  data_inicio_atividade : Option (List Char)
  situacao_cadastral : Option (List Char)
  data_situacao_cadastral : Option (List Char)
  tipo : Option (List Char)
  tipo_logradouro : Option (List Char)
  logradouro : Option (List Char)
  numero : Option (List Char)
  complemento : Option (List Char)
  bairro : Option (List Char)
  cidade : Option Cidade
  estado : Option Estado
  cep : Option (List Char)
  pais : Option Pais
  ddd1 : Option (List Char)
  telefone1 : Option (List Char)
  ddd2 : Option (List Char)
  telefone2 : Option (List Char)
  email : Option (List Char)
  atividade_principal : Option Atividade
  atividades_secundarias : Option (List Atividade)
  inscricoes_estaduais : Option (List InscricaoEstadual)
deriving DecidableEq, Repr

/-- Establishment object with every field absent: the `{}` default of
`apiData.estabelecimento || {}`. -/
def emptyEstabelecimento : Estabelecimento :=
  ⟨none, none, none, none, none, none, none, none, none, none, none, none,
   none, none, none, none, none, none, none, none, none, none, none⟩

/-- Upstream `natureza_juridica` object. -/
structure NatJur where
  id : Option (List Char)
  descricao : Option (List Char)
deriving DecidableEq, Repr

/-- Upstream `porte` object. -/
structure Porte where
  id : Option (List Char)
  descricao : Option (List Char)
deriving DecidableEq, Repr

/-- Upstream `simples` object. -/
structure SimplesInfo where
  simples : Option (List Char)
  data_opcao_simples : Option (List Char)
  mei : Option (List Char)
  data_opcao_mei : Option (List Char)
deriving DecidableEq, Repr

/-- `simples` object with every field absent: the `{}` default of
`apiData.simples || {}`. -/
def emptySimplesInfo : SimplesInfo := ⟨none, none, none, none⟩

/-- Upstream payload (`apiData`), restricted to the fields the mapper
reads.  Every field the upstream may omit is an `Option`. -/
structure RawData where
  cnpj_raiz : Option (List Char)
  atualizado_em : Option (List Char)
  razao_social : Option (List Char)
  natureza_juridica : Option NatJur
  porte : Option Porte
  capital_social : Option (List Char)
  estabelecimento : Option Estabelecimento
  simples : Option SimplesInfo
  socios : Option (List Socio)
deriving DecidableEq, Repr

/-- Upstream payload with every field absent. -/
def emptyRaw : RawData := ⟨none, none, none, none, none, none, none, none, none⟩

/-- Mapped `status` object. -/
structure StatusInfo where
  text : Option (List Char)
deriving DecidableEq, Repr

/-- Mapped `{id, text}` pair (nature, activities). -/
structure IdText where
  id : Option (List Char)
  text : Option (List Char)
deriving DecidableEq, Repr

/-- Mapped company-size object. -/
structure SizeInfo where
  text : Option (List Char)
  acronym : Option (List Char)
deriving DecidableEq, Repr

/-- Mapped Simples/SIMEI option block. -/
structure OptantInfo where
  optant : Bool
  since : Option (List Char)
deriving DecidableEq, Repr

/-- Mapped person block of a member. -/
structure Person where
  name : Option (List Char)
  age : Option (List Char)
deriving DecidableEq, Repr

/-- Mapped role block of a member. -/
structure RoleInfo where
  text : List Char
deriving DecidableEq, Repr

/-- Mapped member of `company.members`. -/
structure Member where
  person : Person
  role : RoleInfo
  since : Option (List Char)
deriving DecidableEq, Repr

/-- Mapped `company` block. -/
structure Company where
  name : Option (List Char)
  nature : Option IdText
  size : Option SizeInfo
  equity : Rat
  simples : OptantInfo
  simei : OptantInfo
  members : List Member
deriving DecidableEq, Repr

/-- Mapped address block. -/
structure Address where
  street : List Char
  number : Option (List Char)
  details : Option (List Char)
  district : Option (List Char)
  city : Option (List Char)
  state : Option (List Char)
  zip : Option (List Char)
  country : Option (List Char)
  municipality : Option (List Char)
deriving DecidableEq, Repr

/-- Mapped phone entry. -/
structure Phone where
  area : List Char
  number : List Char
  type : List Char
deriving DecidableEq, Repr

/-- Mapped email entry. -/
structure Email where
  address : List Char
  ownership : List Char
deriving DecidableEq, Repr

/-- Mapped state-registration entry (`type` is always `{id:1, text:'Normal'}`,
flattened here into two fields). -/
structure Registration where
  type_id : Nat
  type_text : List Char
  number : Option (List Char)
  state : Option (List Char)
  enabled : Bool
  status : List Char
deriving DecidableEq, Repr

/-- The normalized company record produced by `DataMapper`. -/
structure MappedRecord where
  taxId : Option (List Char)
  «alias» : Option (List Char)
  founded : Option (List Char)
  updated : Option (List Char)
  status : StatusInfo
  statusDate : Option (List Char)
  head : Bool
  company : Company
  address : Option Address
  phones : List Phone
  emails : List Email
  mainActivity : Option IdText
  sideActivities : List IdText
  registrations : List Registration
  suframa : List (List Char)
deriving DecidableEq, Repr

/-- Embedding of `DataMapper.parseCurrency` from `src/api/cnpj.js`
(lines 306-321): drop the first `R$`, every dot, turn the first comma into
a dot, trim, parse, and default to 0 (the `|| 0` maps both `NaN` and `0`
to `0`).  The `catch` branch is unreachable for string inputs. -/
def parseCurrency (value : Option (List Char)) : Rat :=
  if strFalsy value then 0
  else
    let s1 := replaceFirst "R$".data [] (value.getD [])
    let s2 := s1.filter fun c => !(c == '.')
    let s3 := replaceFirst ",".data ".".data s2
    (jsParseFloat (jsTrim s3)).getD 0

/-- Projection of one upstream partner, from `DataMapper.mapMembers`. -/
def mkMember (socio : Socio) : Member :=
  { person := { name := jsOrNull socio.nome, age := jsOrNull socio.faixa_etaria }
    role := { text := jsOrD (jsOr (socio.qualificacao_socio.bind QualSocio.descricao)
      socio.tipo) "Sócio".data }
    since := socio.data_entrada }

/-- Embedding of `DataMapper.mapMembers` from `src/api/cnpj.js`
(lines 323-336): non-array/absent input yields `[]`; members whose mapped
name is falsy are filtered out. -/
def apiMapMembers : Option (List Socio) → List Member
  | none => []
  | some socios => (socios.map mkMember).filter fun m => !(strFalsy m.person.name)

/-- Embedding of `DataMapper.mapAddress` (lines 338-354); the null guard
corresponds to the `none` case. -/
def mapAddress : Option Estabelecimento → Option Address
  | none => none
  | some est => some
    { street := jsTrim (jsOrD est.tipo_logradouro [] ++ " ".data ++ jsOrD est.logradouro [])
      number := est.numero
      details := est.complemento
      district := est.bairro
      city := est.cidade.bind Cidade.nome
      state := est.estado.bind Estado.sigla
      zip := est.cep
      country := est.pais.bind Pais.nome
      municipality := est.cidade.bind Cidade.nome }

/-- Embedding of `DataMapper.mapPhones` (lines 356-376). -/
def mapPhones (est : Estabelecimento) : List Phone :=
  (if !(strFalsy est.ddd1) && !(strFalsy est.telefone1) then
    [{ area := est.ddd1.getD [], number := est.telefone1.getD [],
       type := "LANDLINE".data }]
   else []) ++
  (if !(strFalsy est.ddd2) && !(strFalsy est.telefone2) then
    [{ area := est.ddd2.getD [], number := est.telefone2.getD [],
       type := "LANDLINE".data }]
   else [])

/-- Embedding of `DataMapper.mapEmails` (lines 378-387). -/
def mapEmails (est : Estabelecimento) : List Email :=
  if strFalsy est.email then []
  else [{ address := est.email.getD [], ownership := "CORPORATE".data }]

/-- Embedding of `DataMapper.mapActivity` (lines 389-396). -/
def mapActivity : Option Atividade → Option IdText
  | none => none
  | some a => some { id := a.id, text := a.descricao }

/-- Embedding of `DataMapper.mapActivities` (lines 398-405). -/
def mapActivities : Option (List Atividade) → List IdText
  | none => []
  | some l => l.map fun a => { id := a.id, text := a.descricao }

/-- Embedding of `DataMapper.mapRegistrations` (lines 407-417). -/
def mapRegistrations : Option (List InscricaoEstadual) → List Registration
  | none => []
  | some l => l.map fun ie =>
    { type_id := 1, type_text := "Normal".data
      number := ie.inscricao_estadual
      state := ie.estado.bind Estado.sigla
      enabled := ie.ativo
      status := if ie.ativo then "Ativa".data else "Inativa".data }

/-- Embedding of `DataMapper.mapToFrontendStructure` from `src/api/cnpj.js`
(lines 259-304). -/
def mapToFrontendStructure (apiData : RawData) : MappedRecord :=
  let est := apiData.estabelecimento.getD emptyEstabelecimento
  let simples := apiData.simples.getD emptySimplesInfo
  { taxId := jsOr est.cnpj apiData.cnpj_raiz
    «alias» := jsOrNull est.nome_fantasia
    founded := est.data_inicio_atividade
    updated := apiData.atualizado_em
    status := { text := jsOrNull est.situacao_cadastral }
    statusDate := est.data_situacao_cadastral
    head := est.tipo == some "MATRIZ".data
    company :=
      { name := jsOrNull apiData.razao_social
        nature := apiData.natureza_juridica.map fun n => { id := n.id, text := n.descricao }
        size := apiData.porte.map fun p => { text := p.descricao, acronym := p.id }
        equity := parseCurrency apiData.capital_social
        simples := { optant := simples.simples == some "SIM".data
                     since := simples.data_opcao_simples }
        simei := { optant := simples.mei == some "SIM".data
                   since := simples.data_opcao_mei }
        members := apiMapMembers apiData.socios }
    address := mapAddress (some est)
    phones := mapPhones est
    emails := mapEmails est
    mainActivity := mapActivity est.atividade_principal
    sideActivities := mapActivities est.atividades_secundarias
    registrations := mapRegistrations est.inscricoes_estaduais
    suframa := [] }

/-- Lookup in a JS `Map` embedded as an insertion-ordered association
list. -/
def assocLookup {β : Type} : List (List Char × β) → List Char → Option β
  | [], _ => none
  | (k', v) :: t, k => if k' = k then some v else assocLookup t k

/-- JS `Map.has`. -/
def assocHas {β : Type} (c : List (List Char × β)) (k : List Char) : Bool :=
  c.any fun p => p.1 == k

/-- JS `Map.set`: overwrite in place when the key exists (keeping its
position), append otherwise. -/
def assocSet {β : Type} (c : List (List Char × β)) (k : List Char) (v : β) :
    List (List Char × β) :=
  if assocHas c k then c.map fun p => if p.1 = k then (k, v) else p
  else c ++ [(k, v)]

/-- JS `Map.delete`: remove the entry with the given key (keys are unique
in a `Map`, so removing every occurrence is the same operation). -/
def assocErase {β : Type} (c : List (List Char × β)) (k : List Char) :
    List (List Char × β) :=
  c.filter fun p => !(p.1 == k)

/-- `SECURITY_CONFIG.CACHE_TTL` (both servers): five minutes in
milliseconds. -/
def CACHE_TTL : Int := 5 * 60 * 1000

/-- `SECURITY_CONFIG.MAX_CACHE_SIZE` in `src/api/cnpj.js`. -/
def MAX_CACHE_SIZE : Nat := 1000

/-- `SECURITY_CONFIG.MAX_CACHE_SIZE` in `src/unnamed/part_000`, the
`maxSize` passed to the `LRUCache` constructor. -/
def OPT_MAX_CACHE_SIZE : Nat := 100

/-- A cache entry `{data, timestamp}`. -/
structure CacheEntry where
  data : MappedRecord
  timestamp : Int
deriving DecidableEq, Repr

/-- The `requestCache` map. -/
abbrev Cache := List (List Char × CacheEntry)

/-- Embedding of `CacheManager.get` from `src/api/cnpj.js` (lines 87-99):
fresh entry served, stale entry deleted and reported absent.  Returns the
result together with the updated map. -/
def cmGet (c : Cache) (cnpj : List Char) (now : Int) : Option MappedRecord × Cache :=
  match assocLookup c cnpj with
  | some entry =>
    if now - entry.timestamp < CACHE_TTL then (some entry.data, c)
    else (none, assocErase c cnpj)
  | none => (none, c)

/-- Embedding of `CacheManager.set` from `src/api/cnpj.js` (lines 101-112)
with the configured capacity as a parameter: when the map is at capacity
the first (oldest) key is deleted, then the entry is set. -/
def cmSetWith (maxSize : Nat) (c : Cache) (cnpj : List Char) (d : MappedRecord)
    (now : Int) : Cache :=
  let c1 := if maxSize ≤ c.length then
      match c.head? with
      | some p => assocErase c p.1
      | none => c
    else c
  assocSet c1 cnpj ⟨d, now⟩

/-- `CacheManager.set` at the configured `MAX_CACHE_SIZE`. -/
def cmSet (c : Cache) (cnpj : List Char) (d : MappedRecord) (now : Int) : Cache :=
  cmSetWith MAX_CACHE_SIZE c cnpj d now

/-- Embedding of `LRUCache.get` from `src/unnamed/part_000` (lines 18-27):
a present entry is returned as stored (no TTL inspection) after being
moved to the most-recent position. -/
def lruGet (c : Cache) (key : List Char) : Option CacheEntry × Cache :=
  match assocLookup c key with
  | none => (none, c)
  | some v => (some v, assocErase c key ++ [(key, v)])

/-- Embedding of `LRUCache.set` from `src/unnamed/part_000` (lines 29-42):
an existing key is deleted first (no eviction); otherwise at capacity the
oldest entry is evicted; the new entry is appended with the current
timestamp. -/
def lruSet (maxSize : Nat) (c : Cache) (key : List Char) (d : MappedRecord)
    (now : Int) : Cache :=
  let c1 := if assocHas c key then assocErase c key
    else if maxSize ≤ c.length then
      match c.head? with
      | some p => assocErase c p.1
      | none => c
    else c
  c1 ++ [(key, ⟨d, now⟩)]

/-- Embedding of `LRUCache.cleanup` from `src/unnamed/part_000`
(lines 44-51): drop entries strictly older than the TTL. -/
def lruCleanup (c : Cache) (now : Int) : Cache :=
  c.filter fun p => !(decide (CACHE_TTL < now - p.2.timestamp))

/-- A cache operation, for stating invariants over operation sequences. -/
inductive CacheOp where
  | get (key : List Char) (now : Int)
  | set (key : List Char) (d : MappedRecord) (now : Int)
deriving Repr

/-- One `CacheManager` operation applied to the map state. -/
def cmApplyWith (maxSize : Nat) (c : Cache) : CacheOp → Cache
  | .get k now => (cmGet c k now).2
  | .set k d now => cmSetWith maxSize c k d now

/-- A `CacheManager` operation sequence run from the empty map. -/
def cmRun (maxSize : Nat) (ops : List CacheOp) : Cache :=
  ops.foldl (cmApplyWith maxSize) []

/-- One `LRUCache` operation applied to the map state. -/
def lruApplyWith (maxSize : Nat) (c : Cache) : CacheOp → Cache
  | .get k _ => (lruGet c k).2
  | .set k d now => lruSet maxSize c k d now

/-- An `LRUCache` operation sequence run from the empty map. -/
def lruRun (maxSize : Nat) (ops : List CacheOp) : Cache :=
  ops.foldl (lruApplyWith maxSize) []

/-- The `rateLimitMap`. -/
abbrev RateMap := List (List Char × Int)

/-- `SECURITY_CONFIG.MAX_REQUESTS_PER_MINUTE` (both servers). -/
def MAX_REQUESTS_PER_MINUTE : Nat := 10

/-- `SECURITY_CONFIG.MAX_REQUESTS_PER_CNPJ_PER_MINUTE` in
`src/api/cnpj.js`. -/
def MAX_REQUESTS_PER_CNPJ_PER_MINUTE : Nat := 3

/-- Embedding of `SecurityMiddleware.checkRateLimit` from `src/api/cnpj.js`
(lines 32-68): delete entries older than the window, count surviving
entries per family by key prefix, deny when a family is at its threshold,
otherwise record one key per family at `now`.  Returns the admission
verdict with the updated map. -/
def apiCheckRateLimit (m : RateMap) (ip cnpj : List Char) (now : Int) :
    Bool × RateMap :=
  let windowStart := now - 60000
  let m1 := m.filter fun p => !(decide (p.2 < windowStart))
  let ipRequests := (m1.filter fun p =>
    startsWithChars p.1 ("ip-".data ++ ip) && decide (windowStart < p.2)).length
  if MAX_REQUESTS_PER_MINUTE ≤ ipRequests then (false, m1)
  else
    let cnpjRequests := (m1.filter fun p =>
      startsWithChars p.1 ("cnpj-".data ++ cnpj) && decide (windowStart < p.2)).length
    if MAX_REQUESTS_PER_CNPJ_PER_MINUTE ≤ cnpjRequests then (false, m1)
    else
      (true, assocSet (assocSet m1 ("ip-".data ++ ip ++ "-".data ++ intChars now) now)
        ("cnpj-".data ++ cnpj ++ "-".data ++ intChars now) now)

/-- Embedding of `SecurityMiddleware.checkRateLimit` from
`src/unnamed/part_000` (lines 64-87): old entries are cleaned only when
the table exceeds 1000; the in-window count keeps the timestamps whose
decimal string starts with the client address (`timestamp.toString().startsWith(ip)`,
as written in the source); admission records `<ip>-<now>`. -/
def optCheckRateLimit (m : RateMap) (ip : List Char) (now : Int) : Bool × RateMap :=
  let windowStart := now - 60000
  let m1 := if 1000 < m.length then m.filter (fun p => !(decide (p.2 < windowStart))) else m
  let requestCount := ((m1.map Prod.snd).filter fun ts =>
    decide (windowStart < ts) && startsWithChars (intChars ts) ip).length
  if MAX_REQUESTS_PER_MINUTE ≤ requestCount then (false, m1)
  else (true, assocSet m1 (ip ++ "-".data ++ intChars now) now)

/-- A query-string value as delivered by the serverless platform: a plain
string, or (for a repeated parameter) an array — any non-string. -/
inductive JsValue where
  | str (s : List Char)
  | arr (elems : List (List Char))
deriving DecidableEq, Repr

/-- JS truthiness of a query value (`''` is falsy, arrays are truthy). -/
def jsTruthy : JsValue → Bool
  | .str s => !s.isEmpty
  | .arr _ => true

/-- Embedding of `SecurityMiddleware.sanitizeCNPJ` from `src/api/cnpj.js`
(lines 77-80): non-strings become `''`; strings keep their digits,
truncated to the first 14. -/
def sanitizeCNPJ : JsValue → List Char
  | .str s => (cleanDigits s).take 14
  | .arr _ => []

/-- Outcome of the single outbound call made by
`ExternalAPIClient.fetchCNPJData`. -/
inductive UpstreamOutcome where
  | success (apiData : RawData)
  | httpError (status : Nat) (errorText : List Char)
  | abortError
  | transportError (msg : List Char)
deriving Repr

/-- Error-message translation of `ExternalAPIClient.fetchCNPJData` from
`src/api/cnpj.js` (lines 214-252): a non-ok response throws
`API externa retornou status <status>: <text>`, an abort throws the
timeout message, any other rejection propagates unchanged. -/
def fetchCNPJData : UpstreamOutcome → Except (List Char) RawData
  | .success d => .ok d
  | .httpError status errorText =>
    .error ("API externa retornou status ".data ++ natChars status ++ ": ".data ++ errorText)
  | .abortError => .error "Timeout na consulta da API externa".data
  | .transportError msg => .error msg

/-- The `catch` block of the handler in `src/api/cnpj.js` (lines 512-538):
status code and user-facing message chosen by substring inspection of the
error message, in source order. -/
def classifyError (msg : List Char) : Nat × List Char :=
  if containsSub "Timeout".data msg then
    (408, "Timeout na consulta externa".data)
  else if containsSub "404".data msg || containsSub "não encontrado".data msg then
    (404, "Empresa não encontrada".data)
  else if containsSub "429".data msg then
    (429, "API externa com limite excedido".data)
  else if containsSub "Failed to fetch".data msg || containsSub "Network".data msg then
    (503, "Serviço temporariamente indisponível".data)
  else (500, "Erro interno do servidor".data)

/-- Error-message translation of `ExternalAPIClient.fetchCNPJData` from
`src/unnamed/part_000` (lines 154-185): a non-ok response throws
`API externa: <status>` (the awaited error text is not used in the
message), an abort throws `Timeout na consulta`, any other rejection
propagates unchanged. -/
def optFetchCNPJData : UpstreamOutcome → Except (List Char) RawData
  | .success d => .ok d
  | .httpError status _ => .error ("API externa: ".data ++ natChars status)
  | .abortError => .error "Timeout na consulta".data
  | .transportError msg => .error msg

/-- The `catch` block of the handler in `src/unnamed/part_000`
(lines 367-389): status code and message chosen by substring inspection of
the error message in source order — `Timeout` → 408, `404` → 404,
`429` → 429, anything else 500.  There is no `não encontrado` and no
503/transport branch. -/
def optClassifyError (msg : List Char) : Nat × List Char :=
  if containsSub "Timeout".data msg then
    (408, "Timeout na consulta".data)
  else if containsSub "404".data msg then
    (404, "Empresa não encontrada".data)
  else if containsSub "429".data msg then
    (429, "API externa com limite excedido".data)
  else (500, "Erro interno do servidor".data)

/-- A JSON response body: `{error:true, message}` or
`{error:false, data, cached}`. -/
inductive RespBody where
  | failure (message : List Char)
  | success (data : MappedRecord) (cached : Bool)
deriving DecidableEq, Repr

/-- An HTTP response; `body = none` is `res.end()` with no body. -/
structure Response where
  status : Nat
  body : Option RespBody
deriving DecidableEq, Repr

/-- Result of one handler invocation: the response, the two tables after
the request, and whether the Registry Client was invoked. -/
structure HandlerResult where
  response : Response
  cache : Cache
  rate : RateMap
  upstreamCalled : Bool
deriving DecidableEq, Repr

/-- Embedding of the request handler from `src/api/cnpj.js`
(lines 423-539).  The outbound call is represented by its outcome
`upstream`; `upstreamCalled` records whether execution reached it.  The
`throw` on a falsy mapped `taxId` lands in the same `catch` block as fetch
errors and is classified from its message. -/
def handler (method : List Char) (queryCnpj : Option JsValue) (ip : List Char)
    (cache : Cache) (rate : RateMap) (now : Int) (upstream : UpstreamOutcome) :
    HandlerResult :=
  if method = "OPTIONS".data then ⟨⟨200, none⟩, cache, rate, false⟩
  else if method ≠ "GET".data then
    ⟨⟨405, some (.failure "Método não permitido".data)⟩, cache, rate, false⟩
  else
    match queryCnpj with
    | none => ⟨⟨400, some (.failure "CNPJ não informado".data)⟩, cache, rate, false⟩
    | some q =>
      if !jsTruthy q then
        ⟨⟨400, some (.failure "CNPJ não informado".data)⟩, cache, rate, false⟩
      else
        let sanitized := sanitizeCNPJ q
        let rl := apiCheckRateLimit rate ip sanitized now
        if !rl.1 then
          ⟨⟨429, some (.failure "Limite de requisições excedido. Tente novamente em 1 minuto.".data)⟩,
            cache, rl.2, false⟩
        else
          match apiValidate sanitized with
          | .invalid e => ⟨⟨400, some (.failure e)⟩, cache, rl.2, false⟩
          | .valid cleaned =>
            let g := cmGet cache cleaned now
            match g.1 with
            | some cachedData =>
              ⟨⟨200, some (.success cachedData true)⟩, g.2, rl.2, false⟩
            | none =>
              match fetchCNPJData upstream with
              | .error emsg =>
                let cls := classifyError emsg
                ⟨⟨cls.1, some (.failure cls.2)⟩, g.2, rl.2, true⟩
              | .ok apiData =>
                let mappedData := mapToFrontendStructure apiData
                if strFalsy mappedData.taxId then
                  let cls := classifyError "Dados inválidos retornados pela API".data
                  ⟨⟨cls.1, some (.failure cls.2)⟩, g.2, rl.2, true⟩
                else
                  ⟨⟨200, some (.success mappedData false)⟩,
                    cmSet g.2 cleaned mappedData now, rl.2, true⟩

/-- A concrete mapped record, used to build cache states in closed
statements. -/
def dummyRecord : MappedRecord := mapToFrontendStructure emptyRaw

/-- Verdicts of a sequence of admission checks against the `src/api/cnpj.js`
rate limiter for one fixed subject, threading the table through. -/
def apiRateScenario (ip cnpj : List Char) : List Int → RateMap → List Bool
  | [], _ => []
  | t :: ts, m =>
    let r := apiCheckRateLimit m ip cnpj t
    r.1 :: apiRateScenario ip cnpj ts r.2

/-- Table state after a sequence of admission checks against the
`src/api/cnpj.js` rate limiter. -/
def apiRateTable (ip cnpj : List Char) : List Int → RateMap → RateMap
  | [], m => m
  | t :: ts, m => apiRateTable ip cnpj ts (apiCheckRateLimit m ip cnpj t).2

/-- Verdicts of a sequence of admission checks against the
`src/unnamed/part_000` rate limiter, threading the table through. -/
def optRateScenario (ip : List Char) : List Int → RateMap → List Bool
  | [], _ => []
  | t :: ts, m =>
    let r := optCheckRateLimit m ip t
    r.1 :: optRateScenario ip ts r.2

theorem digitA_eq_digitB (n : Nat) : digitA n = digitB n := by
  unfold digitA digitB
  have h : n % 11 < 11 := Nat.mod_lt _ (by norm_num)
  split_ifs <;> omega

theorem wnextA_eq_wnextB {w : Nat} (h : 2 ≤ w) : wnextA w = wnextB w := by
  unfold wnextA wnextB
  split_ifs <;> omega

theorem wnextB_ge_two {w : Nat} (h : 2 ≤ w) : 2 ≤ wnextB w := by
  unfold wnextB
  split_ifs <;> omega

theorem apiLoop_eq_optLoop : ∀ (l : List Char) (w : Nat), 2 ≤ w → apiLoop l w = optLoop l w
  | [], _, _ => rfl
  | c :: t, w, h => by
    unfold apiLoop optLoop
    rw [wnextA_eq_wnextB h, apiLoop_eq_optLoop t (wnextB w) (wnextB_ge_two h)]

theorem apiValidate_eq_optValidate (s : List Char) : apiValidate s = optValidate s := by
  unfold apiValidate optValidate
  by_cases hlen : (cleanDigits s).length = 14
  · simp only [hlen]
    norm_num
    by_cases hrep : allSame (cleanDigits s)
    · simp [hrep]
    · simp only [hrep, if_false, Bool.false_eq_true]
      rw [apiLoop_eq_optLoop _ _ (by norm_num), apiLoop_eq_optLoop _ _ (by norm_num),
        digitA_eq_digitB, digitA_eq_digitB]
      have hdrop0 : charAt ((cleanDigits s).drop 12) 0 = charAt (cleanDigits s) 12 := by
        unfold charAt
        rw [List.getD_eq_getElem?_getD, List.getD_eq_getElem?_getD, List.getElem?_drop]
      have hdrop1 : charAt ((cleanDigits s).drop 12) 1 = charAt (cleanDigits s) 13 := by
        unfold charAt
        rw [List.getD_eq_getElem?_getD, List.getD_eq_getElem?_getD, List.getElem?_drop]
      rw [hdrop0, hdrop1]
  · simp [hlen]

theorem optValidate_eq_clientValidate (s : List Char) : optValidate s = clientValidate s := rfl

theorem optLoop_eq_zip : ∀ (l : List Char) (w : Nat),
    optLoop l w = (List.zipWith (· * ·) (l.map dval) (seqB w l.length)).sum
  | [], _ => rfl
  | c :: t, w => by
    simp only [optLoop, List.map_cons, List.length_cons, seqB, List.zipWith_cons_cons,
      List.sum_cons, optLoop_eq_zip t (wnextB w)]

theorem getD_map_dval (l : List Char) (i : Nat) :
    (l.map dval).getD i 0 = dval (charAt l i) := by
  unfold charAt
  rw [List.getD_eq_getElem?_getD, List.getD_eq_getElem?_getD, List.getElem?_map]
  cases l[i]? with
  | none => simp [dval]
  | some c => simp

theorem optValidate_matchesSpec (s : List Char) :
    matchesSpec (optValidate s) (specValidate s) := by
  unfold optValidate specValidate
  by_cases hlen : (cleanDigits s).length = 14
  · simp only [hlen, ne_eq, not_true_eq_false, if_false, reduceIte]
    by_cases hrep : allSame (cleanDigits s)
    · simp [hrep, matchesSpec]
    · have h12 : ((cleanDigits s).take 12).length = 12 := by
        simp [List.length_take, hlen]
      have h13 : ((cleanDigits s).take 13).length = 13 := by
        simp [List.length_take, hlen]
      have e1 : optLoop ((cleanDigits s).take 12) 5
          = (List.zipWith (· * ·) (((cleanDigits s).map dval).take 12)
              [5, 4, 3, 2, 9, 8, 7, 6, 5, 4, 3, 2]).sum := by
        rw [optLoop_eq_zip, h12, ← List.map_take]
        norm_num [seqB, wnextB]
      have e2 : optLoop ((cleanDigits s).take 13) 6
          = (List.zipWith (· * ·) (((cleanDigits s).map dval).take 13)
              [6, 5, 4, 3, 2, 9, 8, 7, 6, 5, 4, 3, 2]).sum := by
        rw [optLoop_eq_zip, h13, ← List.map_take]
        norm_num [seqB, wnextB]
      simp only [hrep, if_false, Bool.false_eq_true, ← e1, ← e2, digitB,
        getD_map_dval]
      split_ifs <;> simp [matchesSpec]
  · simp [hlen, matchesSpec]

/-- Claim C1: for every input string, `validate` strips non-digit
characters, fails when the result is not exactly 14 digits, fails when all
14 digits are identical, and otherwise accepts exactly when both check
digits match the spec's weighted-sum formulas (weights 5,4,3,2,9,8,7,6,5,4,3,2
over the first 12 digits compared with position 12, and weights starting at
6 over the first 13 digits compared with position 13, each digit being
`11 - (sum mod 11)` clamped to 0 when above 9); on success it returns the
cleaned 14-digit string, and in particular `validate("12345678000195")`
succeeds with cleaned `"12345678000195"`. -/
theorem claim_c1 :
    (∀ s : List Char, matchesSpec (apiValidate s) (specValidate s)) ∧
    apiValidate "12345678000195".data = VResult.valid "12345678000195".data :=
  ⟨fun s => by rw [apiValidate_eq_optValidate]; exact optValidate_matchesSpec s,
   by decide⟩

/-- Claim C10: the three validator implementations (api/cnpj.js,
unnamed/part_000, public/script.js) agree on every input string, and the
two check-digit formulations `soma % 11 < 2 ? 0 : 11 - (soma % 11)` and
`11 - (sum % 11)` clamped to 0 when above 9 compute the same digit for
every sum. -/
theorem claim_c10 :
    (∀ s : List Char, apiValidate s = optValidate s ∧ optValidate s = clientValidate s) ∧
    ∀ n : Nat, digitA n = digitB n :=
  ⟨fun s => ⟨apiValidate_eq_optValidate s, optValidate_eq_clientValidate s⟩,
   digitA_eq_digitB⟩

/-- Claim C6 (code evaluated at the failing inputs): the repeated-digit
rejection of `"11111111111111"` and the check-digit rejection of
`"11111111111112"` carry the identical error string `"CNPJ inválido"`, so
the two failure reasons are not distinguishable, contrary to the claim and
to the expectations in `src/test/cnpj-validator.test.js`. -/
theorem claim_c6_same_error :
    clientValidate "11111111111111".data = VResult.invalid "CNPJ inválido".data ∧
    clientValidate "11111111111112".data = VResult.invalid "CNPJ inválido".data := by
  exact ⟨by decide, by decide⟩

theorem assocErase_cons {β : Type} (p : List Char × β) (t : List (List Char × β))
    (k : List Char) :
    assocErase (p :: t) k = if p.1 = k then assocErase t k else p :: assocErase t k := by
  simp only [assocErase, List.filter_cons]
  by_cases hp : p.1 = k <;> simp [hp]

theorem assocHas_cons {β : Type} (p : List Char × β) (t : List (List Char × β))
    (k : List Char) : assocHas (p :: t) k = ((p.1 == k) || assocHas t k) := by
  simp [assocHas]

theorem assocLookup_append {β : Type} (a b : List (List Char × β)) (k : List Char) :
    assocLookup (a ++ b) k =
      match assocLookup a k with
      | some v => some v
      | none => assocLookup b k := by
  induction a with
  | nil => rfl
  | cons p t ih =>
    by_cases h : p.1 = k
    · simp [assocLookup, h]
    · simp [assocLookup, h, ih]

theorem assocLookup_erase_ne {β : Type} (c : List (List Char × β)) (k k' : List Char)
    (h : k' ≠ k) : assocLookup (assocErase c k) k' = assocLookup c k' := by
  induction c with
  | nil => rfl
  | cons p t ih =>
    rw [assocErase_cons]
    by_cases hp : p.1 = k
    · rw [if_pos hp]
      have hne : ¬ p.1 = k' := by rw [hp]; exact fun he => h he.symm
      simp only [assocLookup, hne, if_false]
      exact ih
    · rw [if_neg hp]
      simp only [assocLookup]
      by_cases hpk : p.1 = k' <;> simp [hpk, ih]

theorem assocLookup_erase_self {β : Type} (c : List (List Char × β)) (k : List Char) :
    assocLookup (assocErase c k) k = none := by
  induction c with
  | nil => rfl
  | cons p t ih =>
    rw [assocErase_cons]
    by_cases hp : p.1 = k
    · rw [if_pos hp]; exact ih
    · rw [if_neg hp]
      simp only [assocLookup, hp, if_false]
      exact ih

theorem assocHas_false_lookup {β : Type} (c : List (List Char × β)) (k : List Char)
    (h : assocHas c k = false) : assocLookup c k = none := by
  induction c with
  | nil => rfl
  | cons p t ih =>
    rw [assocHas_cons] at h
    rcases Bool.or_eq_false_iff.mp h with ⟨h1, h2⟩
    have hp : ¬ p.1 = k := by simpa using h1
    simp only [assocLookup, hp, if_false]
    exact ih h2

theorem assocErase_of_not_has {β : Type} (c : List (List Char × β)) (k : List Char)
    (h : assocHas c k = false) : assocErase c k = c := by
  induction c with
  | nil => rfl
  | cons p t ih =>
    rw [assocHas_cons] at h
    rcases Bool.or_eq_false_iff.mp h with ⟨h1, h2⟩
    have hp : ¬ p.1 = k := by simpa using h1
    rw [assocErase_cons, if_neg hp, ih h2]

theorem assocSet_of_not_has {β : Type} (c : List (List Char × β)) (k : List Char) (v : β)
    (h : assocHas c k = false) : assocSet c k v = c ++ [(k, v)] := by
  simp [assocSet, h]

theorem assocLookup_overwrite_ne {β : Type} (c : List (List Char × β)) (k : List Char)
    (v : β) (k' : List Char) (h : k' ≠ k) :
    assocLookup (c.map fun p => if p.1 = k then (k, v) else p) k' = assocLookup c k' := by
  induction c with
  | nil => rfl
  | cons p t ih =>
    rw [List.map_cons]
    by_cases hp : p.1 = k
    · rw [if_pos hp]
      have hne : ¬ k = k' := fun he => h he.symm
      have hpk : ¬ p.1 = k' := by rw [hp]; exact hne
      simp only [assocLookup, hne, if_false, hpk]
      exact ih
    · rw [if_neg hp]
      simp only [assocLookup]
      by_cases hpk : p.1 = k' <;> simp [hpk, ih]

theorem assocLookup_set_ne {β : Type} (c : List (List Char × β)) (k : List Char) (v : β)
    (k' : List Char) (h : k' ≠ k) :
    assocLookup (assocSet c k v) k' = assocLookup c k' := by
  by_cases hc : assocHas c k
  · simp only [assocSet, hc, if_true]
    exact assocLookup_overwrite_ne c k v k' h
  · rw [assocSet_of_not_has _ _ _ (by simpa using hc), assocLookup_append]
    have h1 : assocLookup [(k, v)] k' = none := by
      simp only [assocLookup]
      rw [if_neg fun he => h he.symm]
    rw [h1]
    cases assocLookup c k' <;> rfl

theorem assocSet_length_le {β : Type} (c : List (List Char × β)) (k : List Char) (v : β) :
    (assocSet c k v).length ≤ c.length + 1 := by
  by_cases hc : assocHas c k <;> simp [assocSet, hc]

theorem assocErase_length_le {β : Type} (c : List (List Char × β)) (k : List Char) :
    (assocErase c k).length ≤ c.length := by
  unfold assocErase
  exact List.length_filter_le _ _

theorem assocErase_length_lt {β : Type} (c : List (List Char × β)) (k : List Char)
    (h : assocHas c k = true) : (assocErase c k).length < c.length := by
  induction c with
  | nil => simp [assocHas] at h
  | cons p t ih =>
    rw [assocErase_cons]
    by_cases hp : p.1 = k
    · rw [if_pos hp]
      exact Nat.lt_succ_of_le (assocErase_length_le t k)
    · rw [if_neg hp]
      rw [assocHas_cons] at h
      have ht : assocHas t k = true := by
        rcases Bool.or_eq_true_iff.mp h with h1 | h2
        · exact absurd (by simpa using h1) hp
        · exact h2
      simp only [List.length_cons]
      exact Nat.succ_lt_succ (ih ht)

theorem assocLookup_nodup_mem {β : Type} (l : List (List Char × β))
    (h : (l.map Prod.fst).Nodup) (p : List Char × β) (hp : p ∈ l) :
    assocLookup l p.1 = some p.2 := by
  induction l with
  | nil => simp at hp
  | cons q t ih =>
    rw [List.map_cons, List.nodup_cons] at h
    rcases List.mem_cons.mp hp with hq | ht
    · subst hq
      simp [assocLookup]
    · have hqp : ¬ q.1 = p.1 := fun he =>
        h.1 (by rw [he]; exact List.mem_map_of_mem Prod.fst ht)
      simp only [assocLookup, hqp, if_false]
      exact ih h.2 ht

theorem apiCheckRateLimit_empty_fst (ip cnpj : List Char) (now : Int) :
    (apiCheckRateLimit [] ip cnpj now).1 = true := by
  simp [apiCheckRateLimit, MAX_REQUESTS_PER_MINUTE, MAX_REQUESTS_PER_CNPJ_PER_MINUTE]

theorem cleanDigits_take_cleanDigits (s : List Char) (n : Nat) :
    cleanDigits ((cleanDigits s).take n) = (cleanDigits s).take n := by
  unfold cleanDigits
  apply List.filter_eq_self.mpr
  intro a ha
  exact List.of_mem_filter (List.mem_of_mem_take ha)

/-- Claim C7: a request whose method is neither GET nor OPTIONS receives
405 with an `error: true` body before any rate limiting or validation
(both tables unchanged, upstream untouched); OPTIONS receives 200 with no
body; a GET without a `cnpj` query parameter receives 400 with message
`CNPJ não informado` without the upstream being contacted. -/
theorem claim_c7 :
    (∀ (method : List Char) (q : Option JsValue) (ip : List Char) (cache : Cache)
      (rate : RateMap) (now : Int) (up : UpstreamOutcome),
      method ≠ "GET".data → method ≠ "OPTIONS".data →
      handler method q ip cache rate now up =
        ⟨⟨405, some (.failure "Método não permitido".data)⟩, cache, rate, false⟩) ∧
    (∀ (q : Option JsValue) (ip : List Char) (cache : Cache) (rate : RateMap)
      (now : Int) (up : UpstreamOutcome),
      handler "OPTIONS".data q ip cache rate now up =
        ⟨⟨200, none⟩, cache, rate, false⟩) ∧
    (∀ (ip : List Char) (cache : Cache) (rate : RateMap) (now : Int)
      (up : UpstreamOutcome),
      handler "GET".data none ip cache rate now up =
        ⟨⟨400, some (.failure "CNPJ não informado".data)⟩, cache, rate, false⟩) := by
  refine ⟨?_, ?_, ?_⟩
  · intro method q ip cache rate now up h1 h2
    unfold handler
    rw [if_neg h2, if_pos h1]
  · intro q ip cache rate now up
    unfold handler
    rw [if_pos rfl]
  · intro ip cache rate now up
    unfold handler
    rw [if_neg (by decide), if_neg (by simp)]

theorem claim_c7_witness :
    handler "POST".data none "1.2.3.4".data [] [] 0 .abortError =
      ⟨⟨405, some (.failure "Método não permitido".data)⟩, [], [], false⟩ ∧
    handler "OPTIONS".data none "1.2.3.4".data [] [] 0 .abortError =
      ⟨⟨200, none⟩, [], [], false⟩ ∧
    handler "GET".data none "1.2.3.4".data [] [] 0 .abortError =
      ⟨⟨400, some (.failure "CNPJ não informado".data)⟩, [], [], false⟩ :=
  ⟨claim_c7.1 "POST".data none "1.2.3.4".data [] [] 0 .abortError (by decide) (by decide),
   claim_c7.2.1 none "1.2.3.4".data [] [] 0 .abortError,
   claim_c7.2.2 "1.2.3.4".data [] [] 0 .abortError⟩

/-- Claim C9: before validation the handler sanitizes the raw `cnpj` query
value: a non-string becomes `''` (so the request is answered 400 as wrong
length rather than crashing), and the digit sequence is truncated to its
first 14 digits — an input with more than 14 digits is itself rejected by
`validate` for wrong length, but after sanitization is never rejected for
wrong length and is accepted exactly when its first 14 digits form a valid
identifier. -/
theorem claim_c9 :
    (∀ l : List (List Char), sanitizeCNPJ (.arr l) = []) ∧
    (∀ (l : List (List Char)) (ip : List Char) (cache : Cache) (now : Int)
      (up : UpstreamOutcome),
      (handler "GET".data (some (.arr l)) ip cache [] now up).response =
        ⟨400, some (.failure "CNPJ deve conter 14 dígitos".data)⟩ ∧
      (handler "GET".data (some (.arr l)) ip cache [] now up).upstreamCalled = false) ∧
    (∀ s : List Char, 14 < (cleanDigits s).length →
      apiValidate s = .invalid "CNPJ deve conter 14 dígitos".data) ∧
    (∀ (s e : List Char), 14 ≤ (cleanDigits s).length →
      apiValidate (sanitizeCNPJ (.str s)) = .invalid e → e = "CNPJ inválido".data) ∧
    (apiValidate "123456780001950".data = .invalid "CNPJ deve conter 14 dígitos".data ∧
     apiValidate (sanitizeCNPJ (.str "123456780001950".data)) =
       .valid "12345678000195".data) := by
  refine ⟨fun l => rfl, ?_, ?_, ?_, by decide, by decide⟩
  · intro l ip cache now up
    constructor <;>
      simp [handler, jsTruthy, sanitizeCNPJ, apiCheckRateLimit, apiValidate, cleanDigits,
        MAX_REQUESTS_PER_MINUTE, MAX_REQUESTS_PER_CNPJ_PER_MINUTE]
  · intro s h
    have hne : (cleanDigits s).length ≠ 14 := by omega
    simp [apiValidate, hne]
  · intro s e h hv
    have hclean : cleanDigits ((cleanDigits s).take 14) = (cleanDigits s).take 14 :=
      cleanDigits_take_cleanDigits s 14
    have hlen : ((cleanDigits s).take 14).length = 14 := by
      simp [List.length_take]
      omega
    show e = "CNPJ inválido".data
    have hv' : apiValidate ((cleanDigits s).take 14) = .invalid e := hv
    rw [apiValidate] at hv'
    simp only [hclean, hlen, ne_eq, not_true_eq_false, if_false, reduceIte] at hv'
    split at hv'
    · simp only [VResult.invalid.injEq] at hv'
      exact hv'.symm
    · split at hv'
      · simp only [VResult.invalid.injEq] at hv'
        exact hv'.symm
      · split at hv'
        · simp only [VResult.invalid.injEq] at hv'
          exact hv'.symm
        · simp at hv'

theorem claim_c9_witness :
    apiValidate "123456780001950".data = .invalid "CNPJ deve conter 14 dígitos".data ∧
    "CNPJ inválido".data = "CNPJ inválido".data :=
  ⟨claim_c9.2.2.1 "123456780001950".data (by decide),
   claim_c9.2.2.2.1 "111111111111115".data "CNPJ inválido".data (by decide) (by decide)⟩

theorem cmGet_absent (c : Cache) (k : List Char) (now : Int)
    (h : assocLookup c k = none) : cmGet c k now = (none, c) := by
  simp [cmGet, h]

theorem cmGet_stale (c : Cache) (k : List Char) (now : Int) (e : CacheEntry)
    (h : assocLookup c k = some e) (hst : CACHE_TTL ≤ now - e.timestamp) :
    cmGet c k now = (none, assocErase c k) := by
  simp only [cmGet, h]
  rw [if_neg (not_lt.mpr hst)]

theorem cmGet_fresh (c : Cache) (k : List Char) (now : Int) (e : CacheEntry)
    (h : assocLookup c k = some e) (hf : now - e.timestamp < CACHE_TTL) :
    cmGet c k now = (some e.data, c) := by
  simp only [cmGet, h]
  rw [if_pos hf]

theorem lruGet_found (c : Cache) (k : List Char) (e : CacheEntry)
    (h : assocLookup c k = some e) :
    lruGet c k = (some e, assocErase c k ++ [(k, e)]) := by
  simp only [lruGet, h]

/-- Claim C3 counterexample: `LRUCache.get` performs no TTL check — at
`now = 300000` the entry inserted at time 0 has age at least `CACHE_TTL`,
yet `get` returns the stored entry (and keeps it in the map) instead of
deleting it and returning absent. -/
theorem claim_c3_counterexample :
    CACHE_TTL ≤ (300000 : Int) - (0 : Int) ∧
    lruGet [("12345678000195".data, ⟨dummyRecord, 0⟩)] "12345678000195".data =
      (some ⟨dummyRecord, 0⟩, [("12345678000195".data, ⟨dummyRecord, 0⟩)]) := by
  constructor
  · decide
  · rfl

/-- Claim C3 (amended): `CacheManager.get` is the staleness authority —
absent keys give absent, stale entries are deleted and reported absent,
fresh entries are served; `LRUCache.get` does not inspect the TTL and
returns any stored entry (staleness of its entries is checked by the
part_000 handler instead); a handler request whose validated identifier
has a fresh cache entry responds 200 with `cached: true` and does not
invoke the Registry Client. -/
theorem claim_c3_amended :
    (∀ (c : Cache) (k : List Char) (now : Int),
      assocLookup c k = none → cmGet c k now = (none, c)) ∧
    (∀ (c : Cache) (k : List Char) (now : Int) (e : CacheEntry),
      assocLookup c k = some e → CACHE_TTL ≤ now - e.timestamp →
      cmGet c k now = (none, assocErase c k) ∧
      assocLookup (cmGet c k now).2 k = none) ∧
    (∀ (c : Cache) (k : List Char) (now : Int) (e : CacheEntry),
      assocLookup c k = some e → now - e.timestamp < CACHE_TTL →
      cmGet c k now = (some e.data, c)) ∧
    (∀ (c : Cache) (k : List Char) (e : CacheEntry),
      assocLookup c k = some e → (lruGet c k).1 = some e) ∧
    (∀ (q : JsValue) (ip cleaned : List Char) (cache : Cache) (rate : RateMap)
      (now : Int) (up : UpstreamOutcome) (e : CacheEntry),
      jsTruthy q = true →
      (apiCheckRateLimit rate ip (sanitizeCNPJ q) now).1 = true →
      apiValidate (sanitizeCNPJ q) = .valid cleaned →
      assocLookup cache cleaned = some e →
      now - e.timestamp < CACHE_TTL →
      handler "GET".data (some q) ip cache rate now up =
        ⟨⟨200, some (.success e.data true)⟩, cache,
          (apiCheckRateLimit rate ip (sanitizeCNPJ q) now).2, false⟩) := by
  refine ⟨cmGet_absent, ?_, cmGet_fresh, ?_, ?_⟩
  · intro c k now e h hst
    refine ⟨cmGet_stale c k now e h hst, ?_⟩
    rw [cmGet_stale c k now e h hst]
    exact assocLookup_erase_self c k
  · intro c k e h
    rw [lruGet_found c k e h]
  · intro q ip cleaned cache rate now up e hq hrl hval hlk hfresh
    simp only [handler, reduceIte, hq, Bool.not_true, Bool.false_eq_true, if_false,
      hrl, hval, cmGet_fresh cache cleaned now e hlk hfresh]
    rw [if_neg (by decide), if_neg (by simp)]

theorem claim_c3_amended_witness :
    cmGet [] "k".data 0 = (none, []) ∧
    cmGet [("k".data, ⟨dummyRecord, 0⟩)] "k".data 300000 =
      (none, assocErase [("k".data, ⟨dummyRecord, 0⟩)] "k".data) ∧
    cmGet [("k".data, ⟨dummyRecord, 0⟩)] "k".data 1 =
      (some dummyRecord, [("k".data, ⟨dummyRecord, 0⟩)]) ∧
    (lruGet [("k".data, ⟨dummyRecord, 0⟩)] "k".data).1 = some ⟨dummyRecord, 0⟩ ∧
    handler "GET".data (some (.str "12345678000195".data)) "1.2.3.4".data
      [("12345678000195".data, ⟨dummyRecord, 0⟩)] [] 1 .abortError =
      ⟨⟨200, some (.success dummyRecord true)⟩,
        [("12345678000195".data, ⟨dummyRecord, 0⟩)],
        (apiCheckRateLimit [] "1.2.3.4".data
          (sanitizeCNPJ (.str "12345678000195".data)) 1).2, false⟩ :=
  ⟨claim_c3_amended.1 [] "k".data 0 rfl,
   (claim_c3_amended.2.1 [("k".data, ⟨dummyRecord, 0⟩)] "k".data 300000
     ⟨dummyRecord, 0⟩ rfl (by decide)).1,
   claim_c3_amended.2.2.1 [("k".data, ⟨dummyRecord, 0⟩)] "k".data 1
     ⟨dummyRecord, 0⟩ rfl (by decide),
   claim_c3_amended.2.2.2.1 [("k".data, ⟨dummyRecord, 0⟩)] "k".data
     ⟨dummyRecord, 0⟩ rfl,
   claim_c3_amended.2.2.2.2 (.str "12345678000195".data) "1.2.3.4".data
     "12345678000195".data [("12345678000195".data, ⟨dummyRecord, 0⟩)] [] 1
     .abortError ⟨dummyRecord, 0⟩ rfl (by decide) (by decide) rfl (by decide)⟩

theorem assocHas_eq_mem_keys {β : Type} (c : List (List Char × β)) (k : List Char) :
    assocHas c k = true ↔ k ∈ c.map Prod.fst := by
  induction c with
  | nil => simp [assocHas]
  | cons p t ih =>
    rw [assocHas_cons, List.map_cons]
    constructor
    · intro h
      rcases Bool.or_eq_true_iff.mp h with h1 | h2
      · have h1' : p.1 = k := by simpa using h1
        exact List.mem_cons.mpr (Or.inl h1'.symm)
      · exact List.mem_cons.mpr (Or.inr (ih.mp h2))
    · intro h
      rcases List.mem_cons.mp h with h1 | h2
      · exact Bool.or_eq_true_iff.mpr (Or.inl (by simpa using h1.symm))
      · exact Bool.or_eq_true_iff.mpr (Or.inr (ih.mpr h2))

theorem assocHas_false_of_not_mem {β : Type} (c : List (List Char × β)) (k : List Char)
    (h : k ∉ c.map Prod.fst) : assocHas c k = false := by
  cases hb : assocHas c k
  · rfl
  · exact absurd ((assocHas_eq_mem_keys c k).mp hb) h

theorem assocHas_of_lookup_some {β : Type} (c : List (List Char × β)) (k : List Char)
    (v : β) (h : assocLookup c k = some v) : assocHas c k = true := by
  induction c with
  | nil => simp [assocLookup] at h
  | cons p t ih =>
    rw [assocHas_cons]
    by_cases hp : p.1 = k
    · simp [hp]
    · simp only [assocLookup, hp, if_false] at h
      simp [ih h]

theorem cmSetWith_under (m : Nat) (c : Cache) (k : List Char) (d : MappedRecord)
    (now : Int) (h : c.length < m) : cmSetWith m c k d now = assocSet c k ⟨d, now⟩ := by
  simp [cmSetWith, not_le.mpr h]

theorem cmSetWith_fresh_under (m : Nat) (c : Cache) (k : List Char) (d : MappedRecord)
    (now : Int) (hh : assocHas c k = false) (h : c.length < m) :
    cmSetWith m c k d now = c ++ [(k, ⟨d, now⟩)] := by
  rw [cmSetWith_under m c k d now h, assocSet_of_not_has c k _ hh]

theorem lruSet_fresh_under (m : Nat) (c : Cache) (k : List Char) (d : MappedRecord)
    (now : Int) (hh : assocHas c k = false) (h : c.length < m) :
    lruSet m c k d now = c ++ [(k, ⟨d, now⟩)] := by
  simp [lruSet, hh, not_le.mpr h]

theorem assocErase_cons_self {β : Type} (q : List Char × β) (t : List (List Char × β))
    (hqt : assocHas t q.1 = false) : assocErase (q :: t) q.1 = t := by
  rw [assocErase_cons, if_pos rfl, assocErase_of_not_has t q.1 hqt]

theorem cmSetWith_overflow (m : Nat) (q : List Char × CacheEntry) (t : Cache)
    (k : List Char) (d : MappedRecord) (now : Int) (hm : m ≤ (q :: t).length)
    (hqt : assocHas t q.1 = false) (hk : assocHas (q :: t) k = false) :
    cmSetWith m (q :: t) k d now = t ++ [(k, ⟨d, now⟩)] := by
  have hk' : assocHas t k = false := by
    rw [assocHas_cons] at hk
    exact (Bool.or_eq_false_iff.mp hk).2
  simp only [cmSetWith, if_pos hm, List.head?]
  rw [assocErase_cons_self q t hqt, assocSet_of_not_has t k _ hk']

theorem lruSet_overflow (m : Nat) (q : List Char × CacheEntry) (t : Cache)
    (k : List Char) (d : MappedRecord) (now : Int) (hm : m ≤ (q :: t).length)
    (hqt : assocHas t q.1 = false) (hk : assocHas (q :: t) k = false) :
    lruSet m (q :: t) k d now = t ++ [(k, ⟨d, now⟩)] := by
  simp only [lruSet, hk, Bool.false_eq_true, if_false, if_pos hm, List.head?]
  rw [assocErase_cons_self q t hqt]

theorem lruSet_overwrite (m : Nat) (c : Cache) (k : List Char) (d : MappedRecord)
    (now : Int) (h : assocHas c k = true) :
    lruSet m c k d now = assocErase c k ++ [(k, ⟨d, now⟩)] := by
  simp [lruSet, h]

theorem lruSet_overwrite_lookup_ne (m : Nat) (c : Cache) (k : List Char)
    (d : MappedRecord) (now : Int) (k' : List Char) (h : assocHas c k = true)
    (hne : k' ≠ k) : assocLookup (lruSet m c k d now) k' = assocLookup c k' := by
  rw [lruSet_overwrite m c k d now h, assocLookup_append,
    assocLookup_erase_ne c k k' hne]
  rcases hcl : assocLookup c k' with _ | v
  · simp only [assocLookup]
    rw [if_neg fun he => hne he.symm]
  · rfl

theorem cmSetWith_length (m : Nat) (c : Cache) (k : List Char) (d : MappedRecord)
    (now : Int) (hm : 1 ≤ m) (hc : c.length ≤ m) :
    (cmSetWith m c k d now).length ≤ m := by
  by_cases hcap : m ≤ c.length
  · match c with
    | [] => simp at hcap; omega
    | q :: t =>
      simp only [cmSetWith, if_pos hcap, List.head?]
      have h1 : (assocErase (q :: t) q.1).length ≤ t.length := by
        rw [assocErase_cons, if_pos rfl]
        exact assocErase_length_le t q.1
      have h2 := assocSet_length_le (assocErase (q :: t) q.1) k
        (⟨d, now⟩ : CacheEntry)
      have h3 : (q :: t).length ≤ m := hc
      simp only [List.length_cons] at h3
      omega
  · simp only [cmSetWith, if_neg hcap]
    have h2 := assocSet_length_le c k (⟨d, now⟩ : CacheEntry)
    omega

theorem lruSet_length (m : Nat) (c : Cache) (k : List Char) (d : MappedRecord)
    (now : Int) (hm : 1 ≤ m) (hc : c.length ≤ m) :
    (lruSet m c k d now).length ≤ m := by
  by_cases hh : assocHas c k
  · simp only [lruSet, hh, if_true]
    have := assocErase_length_lt c k hh
    simp only [List.length_append, List.length_cons, List.length_nil]
    omega
  · have hh' : assocHas c k = false := by simpa using hh
    by_cases hcap : m ≤ c.length
    · match c with
      | [] => simp at hcap; omega
      | q :: t =>
        simp only [lruSet, hh', Bool.false_eq_true, if_false, if_pos hcap, List.head?]
        have h1 : (assocErase (q :: t) q.1).length ≤ t.length := by
          rw [assocErase_cons, if_pos rfl]
          exact assocErase_length_le t q.1
        have h3 : (q :: t).length ≤ m := hc
        simp only [List.length_cons] at h3
        simp only [List.length_append, List.length_cons, List.length_nil]
        omega
    · simp only [lruSet, hh', Bool.false_eq_true, if_false, if_neg hcap]
      simp only [List.length_append, List.length_cons, List.length_nil]
      omega

theorem cmGet_length (c : Cache) (k : List Char) (now : Int) :
    ((cmGet c k now).2).length ≤ c.length := by
  rcases h : assocLookup c k with _ | v
  · simp [cmGet, h]
  · simp only [cmGet, h]
    split
    · simp
    · exact assocErase_length_le c k

theorem lruGet_length (c : Cache) (k : List Char) :
    ((lruGet c k).2).length ≤ c.length := by
  rcases h : assocLookup c k with _ | v
  · simp [lruGet, h]
  · simp only [lruGet, h, List.length_append, List.length_cons, List.length_nil]
    have := assocErase_length_lt c k (assocHas_of_lookup_some c k v h)
    omega

theorem cmRun_length (m : Nat) (hm : 1 ≤ m) (ops : List CacheOp) :
    (cmRun m ops).length ≤ m := by
  suffices h : ∀ (c : Cache), c.length ≤ m →
      ∀ ops : List CacheOp, (ops.foldl (cmApplyWith m) c).length ≤ m by
    exact h [] (by simp) ops
  intro c hc ops
  induction ops generalizing c with
  | nil => simpa using hc
  | cons op rest ih =>
    simp only [List.foldl_cons]
    apply ih
    cases op with
    | get k now => exact le_trans (cmGet_length c k now) hc
    | set k d now => exact cmSetWith_length m c k d now hm hc

theorem lruRun_length (m : Nat) (hm : 1 ≤ m) (ops : List CacheOp) :
    (lruRun m ops).length ≤ m := by
  suffices h : ∀ (c : Cache), c.length ≤ m →
      ∀ ops : List CacheOp, (ops.foldl (lruApplyWith m) c).length ≤ m by
    exact h [] (by simp) ops
  intro c hc ops
  induction ops generalizing c with
  | nil => simpa using hc
  | cons op rest ih =>
    simp only [List.foldl_cons]
    apply ih
    cases op with
    | get k now => exact le_trans (lruGet_length c k) hc
    | set k d now => exact lruSet_length m c k d now hm hc

theorem foldl_fresh_append (m : Nat) (step : Cache → (List Char × CacheEntry) → Cache)
    (hstep : ∀ (c : Cache) (p : List Char × CacheEntry),
      assocHas c p.1 = false → c.length < m → step c p = c ++ [p]) :
    ∀ (l : List (List Char × CacheEntry)) (c : Cache),
      ((c ++ l).map Prod.fst).Nodup → c.length + l.length ≤ m →
      l.foldl step c = c ++ l := by
  intro l
  induction l with
  | nil =>
    intro c _ _
    simp
  | cons p rest ih =>
    intro c hnd hlen
    have hfresh : assocHas c p.1 = false := by
      apply assocHas_false_of_not_mem
      rw [List.map_append] at hnd
      rcases List.nodup_append.mp hnd with ⟨_, _, hdisj⟩
      intro hmem
      exact hdisj hmem (by rw [List.map_cons]; exact List.mem_cons_self _ _)
    have hlt : c.length < m := by
      simp only [List.length_cons] at hlen
      omega
    rw [List.foldl_cons, hstep c p hfresh hlt]
    have hnd' : (((c ++ [p]) ++ rest).map Prod.fst).Nodup := by
      rw [List.append_assoc]
      simpa using hnd
    have hlen' : (c ++ [p]).length + rest.length ≤ m := by
      simp only [List.length_append, List.length_cons, List.length_nil,
        List.length_cons] at hlen ⊢
      omega
    rw [ih (c ++ [p]) hnd' hlen', List.append_assoc]
    rfl

theorem foldl_fill_evicts_head (m : Nat)
    (step : Cache → (List Char × CacheEntry) → Cache)
    (hstep : ∀ (c : Cache) (p : List Char × CacheEntry),
      assocHas c p.1 = false → c.length < m → step c p = c ++ [p])
    (hover : ∀ (q : List Char × CacheEntry) (t : Cache) (p : List Char × CacheEntry),
      m ≤ (q :: t).length → assocHas t q.1 = false → assocHas (q :: t) p.1 = false →
      step (q :: t) p = t ++ [p])
    (l : List (List Char × CacheEntry)) (hm : 1 ≤ m) (hlen : l.length = m + 1)
    (hnd : (l.map Prod.fst).Nodup) :
    l.foldl step [] = l.tail := by
  match l with
  | [] => simp at hlen
  | p0 :: rest =>
    have hrlen : rest.length = m := by simpa using hlen
    rcases List.eq_nil_or_concat rest with hre | ⟨mid, last, hmid⟩
    · rw [hre] at hrlen
      simp at hrlen
      omega
    rw [List.concat_eq_append] at hmid
    subst hmid
    have hmidlen : mid.length + 1 = m := by simpa using hrlen
    have hshape : p0 :: (mid ++ [last]) = (p0 :: mid) ++ [last] := by simp
    rw [hshape] at hnd ⊢
    rw [List.foldl_append]
    have hnd1 : ((p0 :: mid).map Prod.fst).Nodup := by
      rw [List.map_append] at hnd
      exact (List.nodup_append.mp hnd).1
    have h1 : (p0 :: mid).foldl step [] = p0 :: mid := by
      have := foldl_fresh_append m step hstep (p0 :: mid) []
        (by rw [List.nil_append]; exact hnd1) (by simp; omega)
      simpa using this
    rw [h1]
    simp only [List.foldl_cons, List.foldl_nil]
    have hq : assocHas mid p0.1 = false := by
      apply assocHas_false_of_not_mem
      rw [List.map_cons, List.nodup_cons] at hnd1
      exact hnd1.1
    have hp : assocHas (p0 :: mid) last.1 = false := by
      apply assocHas_false_of_not_mem
      rw [List.map_append] at hnd
      rcases List.nodup_append.mp hnd with ⟨_, _, hdisj⟩
      intro hmem
      exact hdisj hmem (by rw [List.map_cons]; exact List.mem_cons_self _ _)
    rw [hover p0 mid last (by simp; omega) hq hp]
    simp

/-- Claim C2 counterexample: with the cache at capacity (here capacity 2),
`CacheManager.set` on the already-present key `"b"` still evicts the
unrelated oldest key `"a"` — the claim's "if the key already exists, the
entry is overwritten in place with no eviction" fails for
`CacheManager.set`. -/
theorem claim_c2_counterexample :
    assocLookup (cmSetWith 2 [("a".data, ⟨dummyRecord, 0⟩), ("b".data, ⟨dummyRecord, 1⟩)]
      "b".data dummyRecord 2) "a".data = none ∧
    assocLookup [(("a".data : List Char), (⟨dummyRecord, 0⟩ : CacheEntry)),
      ("b".data, ⟨dummyRecord, 1⟩)] "b".data ≠ none := by
  constructor
  · rfl
  · decide

/-- Claim C2 (amended): `LRUCache.set` on an existing key overwrites with
no eviction (reinserting the key at the most-recent position, every other
key's entry unchanged), but `CacheManager.set`, whenever the cache is at
capacity, evicts the single oldest entry even when the key being set
already exists; in both implementations the cache never holds more than
`maxEntries` entries under any operation sequence, and after inserting
`maxEntries + 1` distinct keys into an empty cache the first-inserted key
is no longer retrievable while all later keys are. -/
theorem claim_c2_amended :
    (∀ (m : Nat) (c : Cache) (k : List Char) (d : MappedRecord) (now : Int),
      assocHas c k = true →
      lruSet m c k d now = assocErase c k ++ [(k, ⟨d, now⟩)] ∧
      ∀ k', k' ≠ k → assocLookup (lruSet m c k d now) k' = assocLookup c k') ∧
    (∀ (m : Nat) (q : List Char × CacheEntry) (t : Cache) (k : List Char)
      (d : MappedRecord) (now : Int),
      m ≤ (q :: t).length → assocHas t q.1 = false → k ≠ q.1 →
      assocLookup (cmSetWith m (q :: t) k d now) q.1 = none) ∧
    (∀ m : Nat, 1 ≤ m → ∀ ops : List CacheOp,
      (cmRun m ops).length ≤ m ∧ (lruRun m ops).length ≤ m) ∧
    (∀ (m : Nat) (l : List (List Char × CacheEntry)), 1 ≤ m → l.length = m + 1 →
      (l.map Prod.fst).Nodup →
      l.foldl (fun acc p => cmSetWith m acc p.1 p.2.data p.2.timestamp) [] = l.tail ∧
      l.foldl (fun acc p => lruSet m acc p.1 p.2.data p.2.timestamp) [] = l.tail) ∧
    (∀ (p : List Char × CacheEntry) (t : Cache),
      ((p :: t).map Prod.fst).Nodup → assocLookup t p.1 = none) ∧
    (∀ (l : Cache) (p : List Char × CacheEntry), (l.map Prod.fst).Nodup → p ∈ l →
      assocLookup l p.1 = some p.2) := by
  refine ⟨?_, ?_, ?_, ?_, ?_, fun l p h hp => assocLookup_nodup_mem l h p hp⟩
  · intro m c k d now h
    exact ⟨lruSet_overwrite m c k d now h,
      fun k' hne => lruSet_overwrite_lookup_ne m c k d now k' h hne⟩
  · intro m q t k d now hm hqt hk
    simp only [cmSetWith, if_pos hm, List.head?]
    rw [assocErase_cons_self q t hqt,
      assocLookup_set_ne t k _ q.1 fun he => hk he.symm]
    exact assocHas_false_lookup t q.1 hqt
  · intro m hm ops
    exact ⟨cmRun_length m hm ops, lruRun_length m hm ops⟩
  · intro m l hm hlen hnd
    constructor
    · apply foldl_fill_evicts_head m _ ?hs ?ho l hm hlen hnd
      case hs =>
        intro c p hf hl
        rw [cmSetWith_fresh_under m c p.1 p.2.data p.2.timestamp hf hl]
      case ho =>
        intro q t p hcap hqt hp
        rw [cmSetWith_overflow m q t p.1 p.2.data p.2.timestamp hcap hqt hp]
    · apply foldl_fill_evicts_head m _ ?hs2 ?ho2 l hm hlen hnd
      case hs2 =>
        intro c p hf hl
        rw [lruSet_fresh_under m c p.1 p.2.data p.2.timestamp hf hl]
      case ho2 =>
        intro q t p hcap hqt hp
        rw [lruSet_overflow m q t p.1 p.2.data p.2.timestamp hcap hqt hp]
  · intro p t hnd
    rw [List.map_cons, List.nodup_cons] at hnd
    exact assocHas_false_lookup t p.1 (assocHas_false_of_not_mem t p.1 hnd.1)

theorem claim_c2_amended_witness :
    lruSet 2 [("a".data, ⟨dummyRecord, 0⟩)] "a".data dummyRecord 5 =
      assocErase [("a".data, ⟨dummyRecord, 0⟩)] "a".data ++
        [("a".data, ⟨dummyRecord, 5⟩)] ∧
    assocLookup (cmSetWith 2 [("a".data, ⟨dummyRecord, 0⟩), ("b".data, ⟨dummyRecord, 1⟩)]
      "c".data dummyRecord 2) "a".data = none ∧
    (cmRun 2 [CacheOp.set "a".data dummyRecord 0]).length ≤ 2 ∧
    [("a".data, (⟨dummyRecord, 0⟩ : CacheEntry)), ("b".data, ⟨dummyRecord, 1⟩),
      ("c".data, ⟨dummyRecord, 2⟩)].foldl
      (fun acc p => cmSetWith 2 acc p.1 p.2.data p.2.timestamp) [] =
      [("b".data, ⟨dummyRecord, 1⟩), ("c".data, ⟨dummyRecord, 2⟩)] ∧
    assocLookup [(("b".data : List Char), (⟨dummyRecord, 1⟩ : CacheEntry))]
      "a".data = none :=
  ⟨(claim_c2_amended.1 2 [(("a".data : List Char), (⟨dummyRecord, 0⟩ : CacheEntry))]
      "a".data dummyRecord 5 (by decide)).1,
   claim_c2_amended.2.1 2 (("a".data : List Char), (⟨dummyRecord, 0⟩ : CacheEntry))
     [(("b".data : List Char), (⟨dummyRecord, 1⟩ : CacheEntry))]
     "c".data dummyRecord 2 (by decide) (by decide) (by decide),
   (claim_c2_amended.2.2.1 2 (by decide) [CacheOp.set "a".data dummyRecord 0]).1,
   (claim_c2_amended.2.2.2.1 2
     [(("a".data : List Char), (⟨dummyRecord, 0⟩ : CacheEntry)),
      ("b".data, (⟨dummyRecord, 1⟩ : CacheEntry)),
      ("c".data, (⟨dummyRecord, 2⟩ : CacheEntry))]
     (by decide) (by decide) (by decide)).1,
   claim_c2_amended.2.2.2.2.1 (("a".data : List Char), (⟨dummyRecord, 0⟩ : CacheEntry))
     [(("b".data : List Char), (⟨dummyRecord, 1⟩ : CacheEntry))] (by decide)⟩

/-- Claim C4 (code evaluated at the failing input): from an empty table,
eleven admission checks for client address `1.2.3.4` within one 60-second
window are all admitted by the part_000 rate limiter — its in-window count
filters `timestamp.toString().startsWith(ip)`, which never matches a
dotted address, so the count is always zero — while the api/cnpj.js
limiter behaves as the claim describes for the combined subject: three
admissions, a denied fourth that leaves the table unchanged, and a fresh
admission after the window has elapsed. -/
theorem claim_c4_eval :
    optRateScenario "1.2.3.4".data
      [100000, 100001, 100002, 100003, 100004, 100005,
       100006, 100007, 100008, 100009, 100010] [] =
      [true, true, true, true, true, true, true, true, true, true, true] ∧
    apiRateScenario "1.2.3.4".data "12345678000195".data
      [100000, 100001, 100002, 100003, 160004] [] =
      [true, true, true, false, true] ∧
    (apiCheckRateLimit (apiRateTable "1.2.3.4".data "12345678000195".data
        [100000, 100001, 100002] []) "1.2.3.4".data "12345678000195".data 100003).2 =
      apiRateTable "1.2.3.4".data "12345678000195".data [100000, 100001, 100002] [] := by
  refine ⟨by decide, by decide, by decide⟩

theorem isPrefixOf_append_self (p r : List Char) : p.isPrefixOf (p ++ r) = true := by
  induction p with
  | nil => simp [List.isPrefixOf]
  | cons c t ih => simp [List.isPrefixOf, ih]

theorem containsSub_of_isPrefixOf (pat s : List Char) (h : pat.isPrefixOf s = true) :
    containsSub pat s = true := by
  cases s with
  | nil =>
    cases pat with
    | nil => rfl
    | cons c t => simp [List.isPrefixOf] at h
  | cons c t => simp [containsSub, h]

theorem containsSub_append_right (pat a b : List Char) (h : containsSub pat b = true) :
    containsSub pat (a ++ b) = true := by
  induction a with
  | nil => simpa using h
  | cons c t ih => simp [containsSub, ih]

theorem containsSub_append_prefix (pat a r : List Char) :
    containsSub pat (a ++ (pat ++ r)) = true :=
  containsSub_append_right pat a (pat ++ r)
    (containsSub_of_isPrefixOf pat (pat ++ r) (isPrefixOf_append_self pat r))

/-- Claim C5 counterexample: a transport failure whose message is Node's
`fetch failed` is answered 500 by the api/cnpj.js handler, not the claimed
503 (its code matches only `Failed to fetch` and `Network`); the part_000
catch block answers a transport failure 500 even when its message is the
browser's `Failed to fetch` (it has no 503 branch at all); and an upstream
404 whose error text contains `Timeout` (for example a proxy's
`Gateway Timeout` body) is classified 408 by the api handler, not 404. -/
theorem claim_c5_counterexample :
    (handler "GET".data (some (.str "12345678000195".data)) "1.2.3.4".data [] [] 100000
      (.transportError "fetch failed".data)).response =
      ⟨500, some (.failure "Erro interno do servidor".data)⟩ ∧
    optFetchCNPJData (.transportError "Failed to fetch".data) =
      .error "Failed to fetch".data ∧
    optClassifyError "Failed to fetch".data = (500, "Erro interno do servidor".data) ∧
    fetchCNPJData (.httpError 404 "Gateway Timeout".data) =
      .error "API externa retornou status 404: Gateway Timeout".data ∧
    (classifyError "API externa retornou status 404: Gateway Timeout".data).1 = 408 := by
  refine ⟨by decide, by rfl, by decide, by rfl, by decide⟩

/-- Claim C5 (amended): both catch blocks classify a failure by substring
inspection of the error message in source order.  The api/cnpj.js handler:
`Timeout` → 408, then `404`/`não encontrado` → 404, then `429` → 429, then
`Failed to fetch`/`Network` → 503, otherwise 500 — so there a transport
failure is answered 503 exactly when its message mentions
`Failed to fetch` or `Network`, and 500 otherwise.  The part_000 handler
has no `não encontrado` and no 503 branch at all: `Timeout` → 408,
`404` → 404, `429` → 429, otherwise 500 — it never answers 503, so every
transport failure without an earlier marker is answered 500 there.  In
both, a timed-out upstream call is always answered 408, and an upstream
404 (resp. 429) is answered 404 (resp. 429) when the constructed message
contains no earlier-matching marker — unconditionally so in part_000,
whose fetch error message `API externa: <status>` does not embed the
upstream body.  A mapped record with falsy `taxId` is answered 500, and
every api-handler response whose status is not 200 carries an
`{error: true, message}` body — the handler always produces a response. -/
theorem claim_c5_amended :
    (fetchCNPJData .abortError = .error "Timeout na consulta da API externa".data ∧
     classifyError "Timeout na consulta da API externa".data =
       (408, "Timeout na consulta externa".data)) ∧
    (∀ t : List Char,
      containsSub "Timeout".data
        ("API externa retornou status ".data ++ natChars 404 ++ ": ".data ++ t) = false →
      (classifyError
        ("API externa retornou status ".data ++ natChars 404 ++ ": ".data ++ t)).1 = 404) ∧
    (∀ t : List Char,
      containsSub "Timeout".data
        ("API externa retornou status ".data ++ natChars 429 ++ ": ".data ++ t) = false →
      containsSub "404".data
        ("API externa retornou status ".data ++ natChars 429 ++ ": ".data ++ t) = false →
      containsSub "não encontrado".data
        ("API externa retornou status ".data ++ natChars 429 ++ ": ".data ++ t) = false →
      (classifyError
        ("API externa retornou status ".data ++ natChars 429 ++ ": ".data ++ t)).1 = 429) ∧
    (∀ msg : List Char,
      containsSub "Timeout".data msg = false →
      containsSub "404".data msg = false →
      containsSub "não encontrado".data msg = false →
      containsSub "429".data msg = false →
      (containsSub "Failed to fetch".data msg || containsSub "Network".data msg) = true →
      (classifyError msg).1 = 503) ∧
    (∀ msg : List Char,
      containsSub "Timeout".data msg = false →
      containsSub "404".data msg = false →
      containsSub "não encontrado".data msg = false →
      containsSub "429".data msg = false →
      (containsSub "Failed to fetch".data msg || containsSub "Network".data msg) = false →
      classifyError msg = (500, "Erro interno do servidor".data)) ∧
    (optFetchCNPJData .abortError = .error "Timeout na consulta".data ∧
     optClassifyError "Timeout na consulta".data = (408, "Timeout na consulta".data)) ∧
    (∀ t : List Char,
      optFetchCNPJData (.httpError 404 t) = .error "API externa: 404".data ∧
      optFetchCNPJData (.httpError 429 t) = .error "API externa: 429".data) ∧
    (optClassifyError "API externa: 404".data = (404, "Empresa não encontrada".data) ∧
     optClassifyError "API externa: 429".data =
       (429, "API externa com limite excedido".data)) ∧
    (∀ msg : List Char,
      (optClassifyError msg).1 = 408 ∨ (optClassifyError msg).1 = 404 ∨
      (optClassifyError msg).1 = 429 ∨ (optClassifyError msg).1 = 500) ∧
    (∀ msg : List Char,
      containsSub "Timeout".data msg = false →
      containsSub "404".data msg = false →
      containsSub "429".data msg = false →
      optClassifyError msg = (500, "Erro interno do servidor".data)) ∧
    (∀ (q : JsValue) (ip cleaned : List Char) (cache : Cache) (rate : RateMap)
      (now : Int) (raw : RawData),
      jsTruthy q = true →
      (apiCheckRateLimit rate ip (sanitizeCNPJ q) now).1 = true →
      apiValidate (sanitizeCNPJ q) = .valid cleaned →
      (cmGet cache cleaned now).1 = none →
      strFalsy (mapToFrontendStructure raw).taxId = true →
      handler "GET".data (some q) ip cache rate now (.success raw) =
        ⟨⟨500, some (.failure "Erro interno do servidor".data)⟩,
          (cmGet cache cleaned now).2,
          (apiCheckRateLimit rate ip (sanitizeCNPJ q) now).2, true⟩) ∧
    (∀ (method : List Char) (q : Option JsValue) (ip : List Char) (cache : Cache)
      (rate : RateMap) (now : Int) (up : UpstreamOutcome),
      (handler method q ip cache rate now up).response.status = 200 ∨
      ∃ m, (handler method q ip cache rate now up).response.body =
        some (.failure m)) := by
  refine ⟨⟨by rfl, by decide⟩, ?_, ?_, ?_, ?_, ⟨by rfl, by decide⟩,
    fun t => ⟨by rfl, by rfl⟩, ⟨by decide, by decide⟩, ?_, ?_, ?_, ?_⟩
  · intro t h
    have h404 : containsSub "404".data
        ("API externa retornou status ".data ++ natChars 404 ++ ": ".data ++ t) = true := by
      rw [show natChars 404 = "404".data by decide]
      exact containsSub_append_prefix "404".data "API externa retornou status ".data
        (": ".data ++ t)
    unfold classifyError
    rw [h, if_neg (by simp), h404, Bool.true_or, if_pos rfl]
  · intro t h1 h2 h3
    have h429 : containsSub "429".data
        ("API externa retornou status ".data ++ natChars 429 ++ ": ".data ++ t) = true := by
      rw [show natChars 429 = "429".data by decide]
      exact containsSub_append_prefix "429".data "API externa retornou status ".data
        (": ".data ++ t)
    unfold classifyError
    rw [h1, if_neg (by simp), h2, h3, if_neg (by simp), h429, if_pos rfl]
  · intro msg h1 h2 h3 h4 h5
    unfold classifyError
    rw [h1, if_neg (by simp), h2, h3, if_neg (by simp), h4, if_neg (by simp),
      h5, if_pos rfl]
  · intro msg h1 h2 h3 h4 h5
    unfold classifyError
    rw [h1, if_neg (by simp), h2, h3, if_neg (by simp), h4, if_neg (by simp),
      h5, if_neg (by simp)]
  · intro msg
    unfold optClassifyError
    split_ifs <;> simp
  · intro msg h1 h2 h3
    unfold optClassifyError
    rw [h1, if_neg (by simp), h2, if_neg (by simp), h3, if_neg (by simp)]
  · intro q ip cleaned cache rate now raw hq hrl hval hmiss htax
    have hcls : classifyError "Dados inválidos retornados pela API".data =
        (500, "Erro interno do servidor".data) := by decide
    simp only [handler, reduceIte, hq, Bool.not_true, Bool.false_eq_true, if_false,
      hrl, hval, hmiss, fetchCNPJData, htax, if_true, hcls]
    rw [if_neg (by decide), if_neg (by simp)]
  · intro method q ip cache rate now up
    simp only [handler]
    repeat' first
    | exact Or.inl rfl
    | exact Or.inr ⟨_, rfl⟩
    | split

theorem claim_c5_amended_witness :
    (classifyError ("API externa retornou status ".data ++ natChars 404 ++ ": ".data ++
      "no such company".data)).1 = 404 ∧
    (classifyError ("API externa retornou status ".data ++ natChars 429 ++ ": ".data ++
      "slow down".data)).1 = 429 ∧
    (classifyError "TypeError: Failed to fetch".data).1 = 503 ∧
    classifyError "socket hang up".data = (500, "Erro interno do servidor".data) ∧
    optClassifyError "socket hang up".data = (500, "Erro interno do servidor".data) ∧
    (handler "GET".data (some (.str "12345678000195".data)) "1.2.3.4".data [] [] 100000
      (.success emptyRaw)).response.status = 500 :=
  ⟨claim_c5_amended.2.1 "no such company".data (by decide),
   claim_c5_amended.2.2.1 "slow down".data (by decide) (by decide) (by decide),
   claim_c5_amended.2.2.2.1 "TypeError: Failed to fetch".data (by decide) (by decide)
     (by decide) (by decide) (by decide),
   claim_c5_amended.2.2.2.2.1 "socket hang up".data (by decide) (by decide) (by decide)
     (by decide) (by decide),
   claim_c5_amended.2.2.2.2.2.2.2.2.2.1 "socket hang up".data (by decide) (by decide)
     (by decide),
   by
    rw [claim_c5_amended.2.2.2.2.2.2.2.2.2.2.1 (.str "12345678000195".data)
      "1.2.3.4".data "12345678000195".data [] [] 100000 emptyRaw rfl (by decide)
      (by decide) rfl (by decide)]⟩

theorem jsParseFloat_1234_56 : jsParseFloat "1234.56".data =
    some (1 * (((1234 : Nat) : Rat) + ((56 : Nat) : Rat) / 10 ^ 2)) := by
  simp only [jsParseFloat]
  have e0 : List.dropWhile Char.isWhitespace "1234.56".data = "1234.56".data := by decide
  rw [e0]
  have e1 : (if "1234.56".data.head? = some '-' ∨ "1234.56".data.head? = some '+'
      then "1234.56".data.tail else "1234.56".data) = "1234.56".data := by
    rw [if_neg (by decide)]
  have e2 : (if "1234.56".data.head? = some '-' then (-1 : Rat) else 1) = 1 := by
    rw [if_neg (by decide)]
  rw [e1, e2]
  have e3 : List.takeWhile Char.isDigit "1234.56".data = "1234".data := by decide
  have e4 : List.dropWhile Char.isDigit "1234.56".data = ".56".data := by decide
  rw [e3, e4]
  have e5 : (if ".56".data.head? = some '.'
      then List.takeWhile Char.isDigit ".56".data.tail else []) = "56".data := by
    rw [if_pos (by decide)]
    decide
  rw [e5]
  have e6 : ("1234".data.isEmpty && "56".data.isEmpty) = false := by decide
  rw [e6, if_neg (by simp)]
  rw [show digitsToNat "1234".data = 1234 from by decide]
  rw [show digitsToNat "56".data = 56 from by decide]
  rw [show ("56".data.length) = 2 from by decide]

theorem parseCurrency_brl : parseCurrency (some "R$ 1.234,56".data) = 123456 / 100 := by
  have h1 : jsTrim (replaceFirst ",".data ".".data
      (List.filter (fun c => !(c == '.'))
        (replaceFirst "R$".data [] ((some "R$ 1.234,56".data).getD [])))) =
      "1234.56".data := by decide
  simp only [parseCurrency]
  rw [if_neg (by decide), h1, jsParseFloat_1234_56]
  norm_num

theorem jsParseFloat_10000_00 : jsParseFloat "10000.00".data =
    some (1 * (((10000 : Nat) : Rat) + ((0 : Nat) : Rat) / 10 ^ 2)) := by
  simp only [jsParseFloat]
  have e0 : List.dropWhile Char.isWhitespace "10000.00".data = "10000.00".data := by
    decide
  rw [e0]
  have e1 : (if "10000.00".data.head? = some '-' ∨ "10000.00".data.head? = some '+'
      then "10000.00".data.tail else "10000.00".data) = "10000.00".data := by
    rw [if_neg (by decide)]
  have e2 : (if "10000.00".data.head? = some '-' then (-1 : Rat) else 1) = 1 := by
    rw [if_neg (by decide)]
  rw [e1, e2]
  have e3 : List.takeWhile Char.isDigit "10000.00".data = "10000".data := by decide
  have e4 : List.dropWhile Char.isDigit "10000.00".data = ".00".data := by decide
  rw [e3, e4]
  have e5 : (if ".00".data.head? = some '.'
      then List.takeWhile Char.isDigit ".00".data.tail else []) = "00".data := by
    rw [if_pos (by decide)]
    decide
  rw [e5]
  have e6 : ("10000".data.isEmpty && "00".data.isEmpty) = false := by decide
  rw [e6, if_neg (by simp)]
  rw [show digitsToNat "10000".data = 10000 from by decide]
  rw [show digitsToNat "00".data = 0 from by decide]
  rw [show ("00".data.length) = 2 from by decide]

theorem parseCurrency_plain : parseCurrency (some "10.000,00".data) = 10000 := by
  have h1 : jsTrim (replaceFirst ",".data ".".data
      (List.filter (fun c => !(c == '.'))
        (replaceFirst "R$".data [] ((some "10.000,00".data).getD [])))) =
      "10000.00".data := by decide
  simp only [parseCurrency]
  rw [if_neg (by decide), h1, jsParseFloat_10000_00]
  norm_num

/-- Claim C8: the Data Mapper is a pure total function of the payload: a
payload with every optional field absent maps to the explicit record of
nulls, empty lists and defaults below (nothing is thrown — the embedding
is total); currency strings are parsed by dropping the first `R$` and
every dot, turning the first comma into a dot and trimming, with absence
and parse failure defaulting to 0; and every member entry whose name is
falsy is excluded from the members list. -/
theorem claim_c8 :
    mapToFrontendStructure emptyRaw =
      { taxId := none, «alias» := none, founded := none, updated := none,
        status := ⟨none⟩, statusDate := none, head := false,
        company := ⟨none, none, none, 0, ⟨false, none⟩, ⟨false, none⟩, []⟩,
        address := some ⟨[], none, none, none, none, none, none, none, none⟩,
        phones := [], emails := [], mainActivity := none, sideActivities := [],
        registrations := [], suframa := [] } ∧
    (∀ socios : List Socio,
      (apiMapMembers (some socios)).all (fun mem => !(strFalsy mem.person.name)) =
        true) ∧
    apiMapMembers none = [] ∧
    parseCurrency none = 0 ∧
    parseCurrency (some []) = 0 ∧
    parseCurrency (some "abc".data) = 0 ∧
    parseCurrency (some "R$ 1.234,56".data) = 123456 / 100 ∧
    parseCurrency (some "10.000,00".data) = 10000 := by
  refine ⟨by decide, ?_, rfl, by decide, by decide, by decide,
    parseCurrency_brl, parseCurrency_plain⟩
  intro socios
  unfold apiMapMembers
  simp only [List.all_eq_true]
  intro mem hmem
  exact (List.mem_filter.mp hmem).2
